import Mathlib

/-!
Verification development for the `cursor-init` CLI
(`src/cursor_init/main.py`, `src/cursor_init/templates.py`).

The Python code is shallowly embedded: Python dicts holding JSON-derived
values become association lists over a `Json` value type, the module-level
`TEMPLATES` catalog is transcribed from `templates.py`, and the CLI commands
(`install`, `show`) become pure functions from an explicit environment
(remote-registry outcome, per-URL download outcomes, current target-file
contents, the interactive answer, and the write outcome) to a command result
(exit code, final file contents, console output, network calls performed).
-/

namespace CursorInit

/-- JSON-derived Python values, as produced by `response.json()` and as stored
in the template dicts: objects, arrays, strings, integers, booleans, null. -/
inductive Json where
  | obj (fields : List (String × Json))
  | arr (items : List Json)
  | str (s : String)
  | num (n : Int)
  | bool (b : Bool)
  | null

/-- A Python dict with string keys and JSON-derived values (keys unique,
insertion-ordered), as an association list. -/
abbrev Dict := List (String × Json)

/-- `d[k] = v` on a Python dict: replace the value at key `k` in place if the
key exists, otherwise append the new pair at the end (insertion order). -/
def dictInsert : Dict → String → Json → Dict
  | [], k, v => [(k, v)]
  | (a, b) :: t, k, v => if a = k then (k, v) :: t else (a, b) :: dictInsert t k v

/-- `d.update(e)` for two Python dicts: insert every pair of `e` into `d`,
left to right, later pairs overwriting earlier values at the same key. -/
def dictUpdate (d e : Dict) : Dict :=
  e.foldl (fun acc kv => dictInsert acc kv.1 kv.2) d

/-- The Python exception classes relevant to `get_registry`:
`requests.RequestException` (with its subclasses `Timeout`, `ConnectionError`,
`HTTPError`), `ValueError` (JSON decode errors and bad dict-update sequences),
`KeyError`, and `TypeError` (update of a dict with a non-iterable). -/
inductive PyExc where
  | requestException
  | valueError
  | keyError
  | typeError
deriving Repr, DecidableEq

/-- Whether `except (requests.RequestException, ValueError, KeyError)` in
`get_registry` (main.py line 60) catches the exception. -/
def isCaught : PyExc → Bool
  | .typeError => false
  | _ => true

/-- `d.update(items)` where `items` is a Python sequence (a JSON array):
each element must itself convert to a key/value pair — a two-element array
with a string key inserts that pair, a two-character string inserts its two
characters as key and value, a two-key object inserts its two keys as key and
value; an element of any other length raises `ValueError`, a non-iterable
element raises `TypeError`.  Iteration is sequential, so pairs seen before a
failing element are already inserted: the returned dict is the (possibly
partially updated) dict together with the exception raised, if any. -/
def updSeq (d : Dict) : List Json → Dict × Option PyExc
  | [] => (d, none)
  | item :: rest =>
    match item with
    | .arr [.str k, v] => updSeq (dictInsert d k v) rest
    | .arr l => (d, some (if l.length = 2 then .typeError else .valueError))
    | .str s =>
      match s.toList with
      | [a, b] => updSeq (dictInsert d (String.mk [a]) (.str (String.mk [b]))) rest
      | _ => (d, some .valueError)
    | .obj fields =>
      match fields with
      | [(k1, _), (k2, _)] => updSeq (dictInsert d k1 (.str k2)) rest
      | _ => (d, some .valueError)
    | _ => (d, some .typeError)

/-- `all_templates.update(v)` (main.py line 58) for an arbitrary JSON-derived
value `v`: an object merges its fields in order; an empty string is an empty
sequence (no-op); a nonempty string raises `ValueError` at its first element
(every character has length 1, not 2); an array follows sequence semantics
(`updSeq`); a number, boolean or null is not iterable and raises `TypeError`.
Returns the dict after the call together with the exception raised, if any. -/
def updateFromJson (d : Dict) (v : Json) : Dict × Option PyExc :=
  match v with
  | .obj fields => (dictUpdate d fields, none)
  | .str s => if s.isEmpty then (d, none) else (d, some .valueError)
  | .arr items => updSeq d items
  | _ => (d, some .typeError)

/-- The outcome of the single registry HTTP request in `get_registry`
(main.py line 50): a timeout, a transport-level connection failure, a
non-success HTTP status (turned into `HTTPError` by `raise_for_status`), a
response body that is not valid JSON (`response.json()` raises a
`ValueError` subclass), or a successfully parsed JSON document. -/
inductive RemoteOutcome where
  | timeout
  | connectionFailure
  | httpError (status : Nat)
  | invalidJson
  | success (doc : Json)
/-- The inline rules text of the "python" template (templates.py). -/
def pythonContent : String :=
  "# Python Development Rules\n\nYou are an expert Python developer. Follow these guidelines for all code generation.\n\n## Code Style & Standards\n\n- Follow PEP 8 style guide strictly\n- Use 4 spaces for indentation, never tabs\n- Maximum line length of 88 characters (Black formatter standard)\n- Use snake_case for functions and variables\n- Use PascalCase for class names\n- Use SCREAMING_SNAKE_CASE for constants\n\n## Type Hints (Required)\n\n- Add type hints to ALL function signatures\n- Use \x60from __future__ import annotations\x60 for forward references\n- Prefer built-in generics (list, dict) over typing module equivalents (Python 3.9+)\n- Use \x60Optional[X]\x60 or \x60X | None\x60 for nullable types\n- Use \x60TypeVar\x60 for generic functions\n- Example:\n  \x60\x60\x60python\n  def process_items(items: list[str], count: int | None = None) -> dict[str, int]:\n  \x60\x60\x60\n\n## Docstrings (Required)\n\n- Use Google-style docstrings for all public functions, classes, and modules\n- Include Args, Returns, Raises sections where applicable\n- Example:\n  \x60\x60\x60python\n  def calculate_total(items: list[float], tax_rate: float) -> float:\n      \"\"\"Calculate the total price including tax.\n\n      Args:\n          items: List of item prices.\n          tax_rate: Tax rate as a decimal (e.g., 0.08 for 8%).\n\n      Returns:\n          Total price including tax.\n\n      Raises:\n          ValueError: If tax_rate is negative.\n      \"\"\"\n  \x60\x60\x60\n\n## Error Handling\n\n- Use specific exception types, never bare \x60except:\x60\n- Create custom exceptions for domain-specific errors\n- Use context managers for resource management\n- Prefer EAFP (Easier to Ask Forgiveness than Permission) over LBYL\n\n## Project Structure\n\n- Use \x60src/\x60 layout for packages\n- Keep \x60__init__.py\x60 files minimal\n- Separate concerns: models, services, utils, etc.\n- Use absolute imports within the project\n\n## Testing\n\n- Write tests using pytest\n- Use fixtures for test setup\n- Aim for descriptive test names: \x60test_should_raise_when_invalid_input\x60\n- Use parametrize for testing multiple cases\n\n## Dependencies\n\n- Use virtual environments (venv or conda)\n- Pin dependencies in requirements.txt or pyproject.toml\n- Separate dev dependencies from production\n\n## Modern Python Features\n\n- Use f-strings for string formatting\n- Use dataclasses or Pydantic for data structures\n- Use pathlib for file paths\n- Use enumerate() instead of manual indexing\n- Use context managers (with statements) for resources\n"

/-- The "python" entry of TEMPLATES, a Python dict with name, description and inline content (templates.py). -/
def pythonTemplate : List (String × Json) :=
  [("name", Json.str "Python"),
   ("description", Json.str "Modern Python with type hints, docstrings, and best practices"),
   ("content", Json.str pythonContent)]

/-- The inline rules text of the "nextjs" template (templates.py). -/
def nextjsContent : String :=
  "# Next.js Development Rules\n\nYou are an expert Next.js developer. Follow these guidelines for all code generation.\n\n## App Router Architecture (Next.js 14+)\n\n- Use the App Router (\x60app/\x60 directory) exclusively\n- Understand the file conventions:\n  - \x60page.tsx\x60 - Route UI\n  - \x60layout.tsx\x60 - Shared layouts\n  - \x60loading.tsx\x60 - Loading states\n  - \x60error.tsx\x60 - Error boundaries\n  - \x60not-found.tsx\x60 - 404 pages\n  - \x60route.ts\x60 - API endpoints\n\n## Server vs Client Components\n\n- Default to Server Components (no directive needed)\n- Add \x60\x27use client\x27\x60 only when necessary:\n  - Using React hooks (useState, useEffect, etc.)\n  - Using browser APIs\n  - Adding event listeners\n  - Using client-only libraries\n- Keep client components small and leaf-level\n- Never import server-only code into client components\n\n## Data Fetching\n\n- Fetch data in Server Components directly using async/await\n- Use React\x27s \x60cache()\x60 for request memoization\n- Implement proper loading and error states\n- Use \x60revalidatePath\x60 or \x60revalidateTag\x60 for cache invalidation\n- Example:\n  \x60\x60\x60tsx\n  async function ProductPage(\x7b params \x7d: \x7b params: \x7b id: string \x7d \x7d) \x7b\n    const product = await getProduct(params.id);\n    return <ProductDetails product=\x7bproduct\x7d />;\n  \x7d\n  \x60\x60\x60\n\n## Server Actions\n\n- Use Server Actions for form submissions and mutations\n- Define with \x60\x27use server\x27\x60 directive\n- Implement proper validation with Zod\n- Return typed responses for client handling\n- Example:\n  \x60\x60\x60tsx\n  \x27use server\x27\n  \n  export async function createPost(formData: FormData) \x7b\n    const validated = postSchema.safeParse(Object.fromEntries(formData));\n    if (!validated.success) return \x7b error: validated.error.flatten() \x7d;\n    // ... create post\n    revalidatePath(\x27/posts\x27);\n  \x7d\n  \x60\x60\x60\n\n## Tailwind CSS\n\n- Use Tailwind utility classes for styling\n- Follow mobile-first responsive design\n- Extract repeated patterns into components, not @apply\n- Use CSS variables for theme values\n- Leverage Tailwind\x27s dark mode with \x60dark:\x60 prefix\n- Use \x60cn()\x60 utility for conditional classes (clsx + tailwind-merge)\n\n## TypeScript\n\n- Enable strict mode in tsconfig.json\n- Define proper types for all props and API responses\n- Use \x60interface\x60 for object shapes, \x60type\x60 for unions/primitives\n- Leverage Next.js built-in types (Metadata, PageProps, etc.)\n\n## Performance\n\n- Use \x60next/image\x60 for all images (automatic optimization)\n- Use \x60next/font\x60 for font optimization\n- Implement proper \x60<Suspense>\x60 boundaries\n- Use \x60dynamic()\x60 for code-splitting client components\n- Add proper \x60loading\x60 and \x60placeholder\x60 states\n\n## SEO & Metadata\n\n- Export \x60metadata\x60 or \x60generateMetadata\x60 in pages\n- Include Open Graph and Twitter card metadata\n- Implement proper structured data (JSON-LD)\n- Use semantic HTML elements\n\n## Project Structure\n\n\x60\x60\x60\napp/\n├── (auth)/           # Route groups\n│   ├── login/\n│   └── register/\n├── api/              # API routes\n├── components/       # Shared components\n│   ├── ui/           # Base UI components\n│   └── forms/        # Form components\n├── lib/              # Utilities and helpers\n├── hooks/            # Custom React hooks\n└── types/            # TypeScript definitions\n\x60\x60\x60\n"

/-- The "nextjs" entry of TEMPLATES, a Python dict with name, description and inline content (templates.py). -/
def nextjsTemplate : List (String × Json) :=
  [("name", Json.str "Next.js"),
   ("description", Json.str "Next.js 14+ with App Router, Server Components, and Tailwind CSS"),
   ("content", Json.str nextjsContent)]

/-- The inline rules text of the "flutter" template (templates.py). -/
def flutterContent : String :=
  "# Flutter Development Rules\n\nYou are an expert Flutter developer. Follow these guidelines for all code generation.\n\n## Dart Language Best Practices\n\n- Use null safety features - avoid \x60!\x60 operator when possible\n- Prefer \x60final\x60 over \x60var\x60 for immutable variables\n- Use \x60const\x60 constructors wherever possible for compile-time constants\n- Follow effective Dart style guide naming conventions:\n  - \x60lowerCamelCase\x60 for variables and functions\n  - \x60UpperCamelCase\x60 for classes and types\n  - \x60lowercase_with_underscores\x60 for libraries and file names\n\n## Widget Architecture\n\n- Prefer Stateless widgets over Stateful when no local state needed\n- Keep widgets small and focused (Single Responsibility)\n- Extract reusable widgets into separate files\n- Use \x60const\x60 constructors for widgets when all fields are final\n- Example:\n  \x60\x60\x60dart\n  class UserCard extends StatelessWidget \x7b\n    const UserCard(\x7bsuper.key, required this.user\x7d);\n    \n    final User user;\n    \n    @override\n    Widget build(BuildContext context) \x7b\n      // ...\n    \x7d\n  \x7d\n  \x60\x60\x60\n\n## State Management\n\n- Use Riverpod or Bloc for complex state management\n- Keep UI and business logic separated\n- Use proper state classes (loading, success, error)\n- Avoid putting business logic in widgets\n- Example with Riverpod:\n  \x60\x60\x60dart\n  @riverpod\n  Future<List<Product>> products(ProductsRef ref) async \x7b\n    return ref.watch(productRepositoryProvider).getAll();\n  \x7d\n  \x60\x60\x60\n\n## Project Structure (Clean Architecture)\n\n\x60\x60\x60\nlib/\n├── core/\n│   ├── constants/\n│   ├── errors/\n│   ├── theme/\n│   └── utils/\n├── features/\n│   └── [feature_name]/\n│       ├── data/\n│       │   ├── datasources/\n│       │   ├── models/\n│       │   └── repositories/\n│       ├── domain/\n│       │   ├── entities/\n│       │   ├── repositories/\n│       │   └── usecases/\n│       └── presentation/\n│           ├── pages/\n│           ├── widgets/\n│           └── providers/\n└── main.dart\n\x60\x60\x60\n\n## Navigation\n\n- Use GoRouter for declarative routing\n- Define routes as constants\n- Implement proper deep linking support\n- Handle navigation state properly\n\n## Error Handling\n\n- Use Either type (from dartz or fpdart) for error handling\n- Create custom exception and failure classes\n- Handle errors at the appropriate layer\n- Show user-friendly error messages\n\n## Performance\n\n- Use \x60ListView.builder\x60 for long lists\n- Implement proper image caching with \x60cached_network_image\x60\n- Use \x60RepaintBoundary\x60 for complex widgets\n- Profile with DevTools regularly\n- Avoid expensive operations in \x60build\x60 methods\n\n## Testing\n\n- Write unit tests for business logic\n- Write widget tests for UI components\n- Use mockito or mocktail for mocking\n- Aim for high test coverage on domain layer\n\n## Internationalization\n\n- Use \x60flutter_localizations\x60 and \x60intl\x60 package\n- Extract all user-facing strings\n- Support RTL layouts properly\n\n## Code Quality\n\n- Run \x60flutter analyze\x60 with zero warnings\n- Format code with \x60dart format\x60\n- Use linting rules from \x60flutter_lints\x60 or \x60very_good_analysis\x60\n"

/-- The "flutter" entry of TEMPLATES, a Python dict with name, description and inline content (templates.py). -/
def flutterTemplate : List (String × Json) :=
  [("name", Json.str "Flutter"),
   ("description", Json.str "Flutter/Dart with clean architecture and best practices"),
   ("content", Json.str flutterContent)]

/-- The inline rules text of the "java-spring" template (templates.py). -/
def java_springContent : String :=
  "# Java Spring Boot Development Rules\n\nYou are an expert Java Spring Boot developer. Follow these guidelines for all code generation.\n\n## Java Version & Features\n\n- Use Java 17+ features (records, sealed classes, pattern matching)\n- Use \x60var\x60 for local variable type inference when type is obvious\n- Prefer records for DTOs and value objects\n- Use text blocks for multi-line strings\n- Example:\n  \x60\x60\x60java\n  public record UserDTO(\n      Long id,\n      String username,\n      String email\n  ) \x7b\x7d\n  \x60\x60\x60\n\n## Spring Boot 3+ Conventions\n\n- Use constructor injection (no @Autowired on constructors)\n- Prefer \x60@RestController\x60 over \x60@Controller\x60 + \x60@ResponseBody\x60\n- Use \x60@RequiredArgsConstructor\x60 from Lombok for injection\n- Follow RESTful API naming conventions\n- Example:\n  \x60\x60\x60java\n  @RestController\n  @RequestMapping(\"/api/v1/users\")\n  @RequiredArgsConstructor\n  public class UserController \x7b\n      private final UserService userService;\n      \n      @GetMapping(\"/\x7bid\x7d\")\n      public ResponseEntity<UserDTO> getUser(@PathVariable Long id) \x7b\n          return ResponseEntity.ok(userService.findById(id));\n      \x7d\n  \x7d\n  \x60\x60\x60\n\n## Project Structure\n\n\x60\x60\x60\nsrc/main/java/com/example/app/\n├── config/           # Configuration classes\n├── controller/       # REST controllers\n├── service/          # Business logic\n├── repository/       # Data access layer\n├── entity/           # JPA entities\n├── dto/              # Data transfer objects\n├── mapper/           # Object mappers\n├── exception/        # Custom exceptions\n└── util/             # Utility classes\n\x60\x60\x60\n\n## Exception Handling\n\n- Create a global \x60@RestControllerAdvice\x60 for exception handling\n- Define custom exceptions for business errors\n- Return proper HTTP status codes\n- Use Problem Details (RFC 7807) for error responses\n- Example:\n  \x60\x60\x60java\n  @RestControllerAdvice\n  public class GlobalExceptionHandler \x7b\n      @ExceptionHandler(ResourceNotFoundException.class)\n      public ResponseEntity<ProblemDetail> handleNotFound(ResourceNotFoundException ex) \x7b\n          ProblemDetail problem = ProblemDetail.forStatusAndDetail(\n              HttpStatus.NOT_FOUND, ex.getMessage());\n          return ResponseEntity.status(HttpStatus.NOT_FOUND).body(problem);\n      \x7d\n  \x7d\n  \x60\x60\x60\n\n## Validation\n\n- Use Bean Validation (jakarta.validation) annotations\n- Validate at controller level with \x60@Valid\x60\n- Create custom validators for complex rules\n- Return meaningful validation error messages\n\n## Data Access (JPA/Hibernate)\n\n- Use Spring Data JPA repositories\n- Define custom queries with \x60@Query\x60 when needed\n- Use \x60@Transactional\x60 at service layer\n- Implement proper pagination with \x60Pageable\x60\n- Avoid N+1 queries with \x60@EntityGraph\x60 or join fetch\n\n## Security (Spring Security 6+)\n\n- Use the new \x60SecurityFilterChain\x60 bean configuration\n- Implement proper CORS configuration\n- Use BCrypt for password encoding\n- Follow OAuth2/JWT best practices for APIs\n- Never expose sensitive data in logs or responses\n\n## Testing\n\n- Use \x60@SpringBootTest\x60 for integration tests\n- Use \x60@WebMvcTest\x60 for controller tests\n- Use \x60@DataJpaTest\x60 for repository tests\n- Mock external dependencies with \x60@MockBean\x60\n- Use Testcontainers for database integration tests\n\n## Logging\n\n- Use SLF4J with Logback\n- Follow proper log levels (ERROR, WARN, INFO, DEBUG)\n- Include correlation IDs for request tracing\n- Never log sensitive information\n\n## Configuration\n\n- Use \x60application.yml\x60 over \x60application.properties\x60\n- Externalize configuration with \x60@ConfigurationProperties\x60\n- Use profiles for environment-specific config\n- Store secrets in environment variables or vault\n\n## API Documentation\n\n- Use SpringDoc OpenAPI for API documentation\n- Document all endpoints with proper descriptions\n- Include request/response examples\n- Keep documentation in sync with code\n"

/-- The "java-spring" entry of TEMPLATES, a Python dict with name, description and inline content (templates.py). -/
def java_springTemplate : List (String × Json) :=
  [("name", Json.str "Java Spring Boot"),
   ("description", Json.str "Spring Boot 3+ with modern Java practices"),
   ("content", Json.str java_springContent)]

/-- TEMPLATES, the module-level local catalog of templates.py: key, then entry dict. -/
def TEMPLATES : Dict :=
  [("python", Json.obj pythonTemplate),
   ("nextjs", Json.obj nextjsTemplate),
   ("flutter", Json.obj flutterTemplate),
   ("java-spring", Json.obj java_springTemplate)]
/-- The fixed remote registry endpoint (main.py line 31). -/
def REMOTE_REGISTRY_URL : String :=
  "https://raw.githubusercontent.com/ThanhNguyxn/cursor-init/main/rules.json"

/-- The target filename written in the current working directory (main.py line 30). -/
def CURSORRULES_FILENAME : String := ".cursorrules"

/-- The registry request timeout in seconds (main.py line 32). -/
def REQUEST_TIMEOUT : Nat := 2

/-- `get_registry` (main.py lines 35-65) with the module-level `TEMPLATES`
passed explicitly, run against a given outcome of the registry request.
`all_templates` starts as a copy of the local catalog; on a caught exception
(`RequestException`, `ValueError`, `KeyError`) the function falls back to
returning `all_templates` as it stands at that point; an uncaught exception
(`TypeError`) propagates to the caller, modelled as `.error`.  The function
body contains no print statement, so the embedding has no output component. -/
def get_registry_with (templates : Dict) (o : RemoteOutcome) : Except PyExc Dict :=
  let all_templates := templates
  match o with
  | .timeout => .ok all_templates
  | .connectionFailure => .ok all_templates
  | .httpError _ => .ok all_templates
  | .invalidJson => .ok all_templates
  | .success doc =>
    match doc with
    | .obj fields =>
      match fields.lookup "templates" with
      | some tv =>
        match updateFromJson all_templates tv with
        | (d, none) => .ok d
        | (d, some e) => if isCaught e then .ok d else .error e
      | none => .ok all_templates
    | _ => .ok all_templates

/-- `get_registry` applied to the module-level `TEMPLATES` catalog. -/
def get_registry (o : RemoteOutcome) : Except PyExc Dict :=
  get_registry_with TEMPLATES o

/-- `get_registry` with the module-level `TEMPLATES` binding threaded as
state: the result of the call paired with the value of `TEMPLATES` after the
call.  Line 47 of main.py copies the catalog (`all_templates =
TEMPLATES.copy()`) and only the copy is ever updated, so the module-level
binding is left untouched. -/
def get_registry_st (templates : Dict) (o : RemoteOutcome) :
    Except PyExc Dict × Dict :=
  (get_registry_with templates o, templates)

/-- The remote-fetch outcomes on which `get_registry` reaches its fallback
value unchanged: any raised-and-caught request/parse failure, a document that
is not a JSON object, or an object without a "templates" key. -/
def fallbackOutcome : RemoteOutcome → Bool
  | .timeout => true
  | .connectionFailure => true
  | .httpError _ => true
  | .invalidJson => true
  | .success (.obj fields) => (fields.lookup "templates").isNone
  | .success _ => false

/-- A JSON value of TemplateEntry shape: an object carrying "name" and
"description", and exactly one of "content" and "url" (spec section 3). -/
def wfEntry : Json → Bool
  | .obj fields =>
    (fields.lookup "name").isSome && (fields.lookup "description").isSome &&
      ((fields.lookup "content").isSome != (fields.lookup "url").isSome)
  | _ => false

/-- A well-formed remote templates mapping: every value has TemplateEntry shape. -/
def wfRemote (d : Dict) : Bool := d.all fun kv => wfEntry kv.2

/-- The environment one command invocation runs against: the outcome of the
registry request, the outcome of each direct download (`download_from_url`:
the response text, or the message of the raised `RequestException`), the
current contents of `./.cursorrules` (none if the file does not exist), the
interactive reply to `typer.confirm` (none models empty/non-interactive
input, which yields the prompt default), and the outcome of
`Path.write_text` (some message if it raises `OSError`). -/
structure Env where
  registry : RemoteOutcome
  fetch : String → Except String String
  existing : Option String
  answer : Option Bool
  writeError : Option String

/-- The observable result of one command invocation: the process exit code,
the contents of `./.cursorrules` afterwards (none if absent), the
text-bearing console prints in order (rich markup, panel borders and
blank-line prints elided), and the URLs requested over the network in order. -/
structure CmdResult where
  exit : Nat
  file : Option String
  out : List String
  calls : List String
deriving Repr, DecidableEq

/-- Python truthiness of an optional string argument, as tested by
`if url and name:` and `if not url and not name:` (main.py lines 182, 188):
`None` and the empty string are falsy. -/
def truthy : Option String → Bool
  | none => false
  | some s => s != ""

/-- Insert a string into an ascending list, keeping order (stable). -/
def insertSorted (x : String) : List String → List String
  | [] => [x]
  | y :: ys => if compare x y = Ordering.gt then y :: insertSorted x ys else x :: y :: ys

/-- Python `sorted()` over strings, as used for key listings. -/
def sortedStrings (l : List String) : List String := l.foldr insertSorted []

/-- The bullet lines listing the available template keys, sorted
(main.py lines 231-232 and 284-285). -/
def keyLines (reg : Dict) : List String :=
  (sortedStrings (reg.map Prod.fst)).map fun k => "  • " ++ k

/-- Console message: both a name and a URL were given (main.py line 184). -/
def bothErrLine : String :=
  "❌ Error: Please use either a template name OR --url, not both."

/-- Console messages: neither a name nor a URL was given (main.py lines 190-194). -/
def neitherErrLines : List String :=
  ["❌ Error: Please provide a template name or use --url.",
   "Examples:",
   "  cursor-init install python",
   "  cursor-init install --url https://example.com/rule.txt"]

/-- Console message: direct-URL download starting (main.py line 200). -/
def downloadingLine : String := "🌐 Downloading from URL..."

/-- Console message: direct-URL download failed, with the exception text
(main.py line 205). -/
def failedDownloadLine (e : String) : String := "❌ Failed to download: " ++ e

/-- Console message following a failed direct-URL download (main.py line 206). -/
def checkUrlLine : String := "Check the URL and your internet connection."

/-- Console message: direct-URL install succeeded (main.py line 214). -/
def urlSuccessLine : String := "✨ Successfully installed cursor rules from URL!"

/-- Console message reporting the created path (main.py lines 219, 265);
the leading working-directory part of the absolute path is elided. -/
def createdLine : String := "Created: " ++ CURSORRULES_FILENAME

/-- Console message: the target file already exists (main.py lines 104-107). -/
def warnExistsLine : String :=
  "⚠️  Warning: A .cursorrules file already exists in this directory."

/-- Console message: the user declined the overwrite (main.py line 110). -/
def cancelledLine : String := "Operation cancelled."

/-- Console message: `write_text` raised `OSError` (main.py line 117). -/
def writeErrLine (e : String) : String := "❌ Error writing file: " ++ e

/-- Console message: unknown template key, quoting elided
(main.py lines 228, 281). -/
def notFoundLine (n : String) : String :=
  "❌ Error: Template " ++ n ++ " not found."

/-- Console message heading the key listing (main.py lines 230, 283). -/
def availableLine : String := "Available templates:"

/-- Console message closing the install key listing (main.py line 234). -/
def tipLine : String := "Tip: Use --url to install from any URL"

/-- Console message: fetching a URL-backed template for install (main.py line 243). -/
def fetchingRulesLine (nm : String) : String := "🌐 Fetching " ++ nm ++ " rules..."

/-- Console message: a URL-backed template download failed, with the
exception text (main.py line 247). -/
def failedTemplateLine (e : String) : String :=
  "❌ Failed to download template: " ++ e

/-- Console message: name-mode install succeeded (main.py lines 257-260). -/
def successLine (nm : String) : String :=
  "✨ Successfully initialized cursor rules for " ++ nm ++ "!"

/-- Console message: fetching a URL-backed template for preview (main.py line 293). -/
def fetchingPreviewLine (nm : String) : String := "🌐 Fetching " ++ nm ++ " preview..."

/-- Console message: a preview fetch failed, with the exception text
(main.py line 297). -/
def failedPreviewLine (e : String) : String := "❌ Failed to fetch preview: " ++ e

/-- Console message: the preview panel title (main.py line 306). -/
def panelTitleLine (nm : String) : String := "📄 " ++ nm ++ " Template"

/-- Console line standing for the interpreter traceback of an exception that
escapes the command function uncaught. -/
def tracebackLine (e : PyExc) : String := "Traceback: " ++ reprStr e

/-- The `str()` rendering of a JSON-derived value inside an f-string;
the renderings of containers are abbreviated (no theorem below reaches them). -/
def pyStr : Json → String
  | .str s => s
  | .num n => toString n
  | .bool true => "True"
  | .bool false => "False"
  | .null => "None"
  | .obj _ => "<dict>"
  | .arr _ => "<list>"

/-- The three ways `write_cursorrules` can come back to its caller: the user
declined the overwrite (`typer.Exit(code=0)`), the write raised `OSError`
(`typer.Exit(code=1)`), or the file was written and the path returned. -/
inductive WriteStep where
  | cancelled
  | failed
  | written
deriving Repr, DecidableEq

/-- `write_cursorrules` (main.py lines 86-120): when the target exists and
`force` is false, print the warning and ask `typer.confirm` (default False,
taken on empty input); a declined overwrite cancels with the file untouched;
otherwise attempt the write, reporting `OSError` as a failure (modelled as
leaving the file unchanged) and replacing the file contents in full on
success.  Returns the step taken, the file contents afterwards, and the
prints made. -/
def write_cursorrules (content : String) (force : Bool) (env : Env) :
    WriteStep × Option String × List String :=
  if env.existing.isSome && !force then
    if env.answer.getD false then
      match env.writeError with
      | some e => (.failed, env.existing, [warnExistsLine, writeErrLine e])
      | none => (.written, some content, [warnExistsLine])
    else
      (.cancelled, env.existing, [warnExistsLine, cancelledLine])
  else
    match env.writeError with
    | some e => (.failed, env.existing, [writeErrLine e])
    | none => (.written, some content, [])

/-- The direct-URL installation mode of `install` (main.py lines 199-221):
download the URL, abort with the exception text on failure, otherwise write
the body through `write_cursorrules` and report success. -/
def installFromUrl (u : String) (force : Bool) (env : Env) : CmdResult :=
  match env.fetch u with
  | .error e =>
    { exit := 1, file := env.existing,
      out := [downloadingLine, failedDownloadLine e, checkUrlLine], calls := [u] }
  | .ok content =>
    match write_cursorrules content force env with
    | (.cancelled, file, wout) =>
      { exit := 0, file := file, out := downloadingLine :: wout, calls := [u] }
    | (.failed, file, wout) =>
      { exit := 1, file := file, out := downloadingLine :: wout, calls := [u] }
    | (.written, file, wout) =>
      { exit := 0, file := file,
        out := downloadingLine :: wout ++ [urlSuccessLine, createdLine], calls := [u] }

/-- The template-name installation mode of `install` (main.py lines 223-266):
build the registry (one network request to the fixed registry URL), reject an
unknown key listing the available ones, then either download a URL-backed
entry (f-string reads the entry name first; a failure aborts with the
exception text) or take the inline content, write it through
`write_cursorrules`, and print the success panel, which reads the entry name.
Missing or non-string fields raise uncaught exceptions, modelled as a
traceback result. -/
def installFromName (n : String) (force : Bool) (env : Env) : CmdResult :=
  match get_registry env.registry with
  | .error e =>
    { exit := 1, file := env.existing, out := [tracebackLine e],
      calls := [REMOTE_REGISTRY_URL] }
  | .ok all_templates =>
    match all_templates.lookup n with
    | none =>
      { exit := 1, file := env.existing,
        out := notFoundLine n :: availableLine :: keyLines all_templates ++ [tipLine],
        calls := [REMOTE_REGISTRY_URL] }
    | some template =>
      match template with
      | .obj fields =>
        match fields.lookup "url" with
        | some tu =>
          match fields.lookup "name" with
          | none =>
            { exit := 1, file := env.existing, out := [tracebackLine .keyError],
              calls := [REMOTE_REGISTRY_URL] }
          | some nmv =>
            match tu with
            | .str tustr =>
              match env.fetch tustr with
              | .error e =>
                { exit := 1, file := env.existing,
                  out := [fetchingRulesLine (pyStr nmv), failedTemplateLine e],
                  calls := [REMOTE_REGISTRY_URL, tustr] }
              | .ok content =>
                match write_cursorrules content force env with
                | (.cancelled, file, wout) =>
                  { exit := 0, file := file,
                    out := fetchingRulesLine (pyStr nmv) :: wout,
                    calls := [REMOTE_REGISTRY_URL, tustr] }
                | (.failed, file, wout) =>
                  { exit := 1, file := file,
                    out := fetchingRulesLine (pyStr nmv) :: wout,
                    calls := [REMOTE_REGISTRY_URL, tustr] }
                | (.written, file, wout) =>
                  { exit := 0, file := file,
                    out := fetchingRulesLine (pyStr nmv) :: wout ++
                      [successLine (pyStr nmv), createdLine],
                    calls := [REMOTE_REGISTRY_URL, tustr] }
            | _ =>
              { exit := 1, file := env.existing, out := [tracebackLine .typeError],
                calls := [REMOTE_REGISTRY_URL] }
        | none =>
          match fields.lookup "content" with
          | none =>
            { exit := 1, file := env.existing, out := [tracebackLine .keyError],
              calls := [REMOTE_REGISTRY_URL] }
          | some (.str c) =>
            match write_cursorrules c force env with
            | (.cancelled, file, wout) =>
              { exit := 0, file := file, out := wout, calls := [REMOTE_REGISTRY_URL] }
            | (.failed, file, wout) =>
              { exit := 1, file := file, out := wout, calls := [REMOTE_REGISTRY_URL] }
            | (.written, file, wout) =>
              match fields.lookup "name" with
              | some nmv =>
                { exit := 0, file := file,
                  out := wout ++ [successLine (pyStr nmv), createdLine],
                  calls := [REMOTE_REGISTRY_URL] }
              | none =>
                { exit := 1, file := file, out := wout ++ [tracebackLine .keyError],
                  calls := [REMOTE_REGISTRY_URL] }
          | some _ =>
            { exit := 1, file := env.existing, out := [tracebackLine .typeError],
              calls := [REMOTE_REGISTRY_URL] }
      | _ =>
        { exit := 1, file := env.existing, out := [tracebackLine .typeError],
          calls := [REMOTE_REGISTRY_URL] }

/-- The `install` command (main.py lines 157-266): validate that exactly one
of the template name and the URL is truthy (both given: one error line, exit
1; neither given: the error and example lines, exit 1; in both cases nothing
is written and no network request is made), then dispatch to the direct-URL
mode or the template-name mode. -/
def install (name url : Option String) (force : Bool) (env : Env) : CmdResult :=
  if truthy url && truthy name then
    { exit := 1, file := env.existing, out := [bothErrLine], calls := [] }
  else if !truthy url && !truthy name then
    { exit := 1, file := env.existing, out := neitherErrLines, calls := [] }
  else if truthy url then
    installFromUrl (url.getD "") force env
  else
    installFromName (name.getD "") force env

/-- The `show` command (main.py lines 269-311), named `show_command` because
`show` is a Lean keyword: build the registry, reject an unknown key listing
the available ones, resolve the entry content (inline, or fetched from the
entry URL with an explicit failure), and print it in a panel titled with the
entry name.  `show` never writes the target file. -/
def show_command (n : String) (env : Env) : CmdResult :=
  match get_registry env.registry with
  | .error e =>
    { exit := 1, file := env.existing, out := [tracebackLine e],
      calls := [REMOTE_REGISTRY_URL] }
  | .ok all_templates =>
    match all_templates.lookup n with
    | none =>
      { exit := 1, file := env.existing,
        out := notFoundLine n :: availableLine :: keyLines all_templates,
        calls := [REMOTE_REGISTRY_URL] }
    | some template =>
      match template with
      | .obj fields =>
        match fields.lookup "url" with
        | some tu =>
          match fields.lookup "name" with
          | none =>
            { exit := 1, file := env.existing, out := [tracebackLine .keyError],
              calls := [REMOTE_REGISTRY_URL] }
          | some nmv =>
            match tu with
            | .str tustr =>
              match env.fetch tustr with
              | .error e =>
                { exit := 1, file := env.existing,
                  out := [fetchingPreviewLine (pyStr nmv), failedPreviewLine e],
                  calls := [REMOTE_REGISTRY_URL, tustr] }
              | .ok content =>
                { exit := 0, file := env.existing,
                  out := [fetchingPreviewLine (pyStr nmv),
                    panelTitleLine (pyStr nmv), content],
                  calls := [REMOTE_REGISTRY_URL, tustr] }
            | _ =>
              { exit := 1, file := env.existing, out := [tracebackLine .typeError],
                calls := [REMOTE_REGISTRY_URL] }
        | none =>
          match fields.lookup "content" with
          | none =>
            { exit := 1, file := env.existing, out := [tracebackLine .keyError],
              calls := [REMOTE_REGISTRY_URL] }
          | some (.str c) =>
            match fields.lookup "name" with
            | some nmv =>
              { exit := 0, file := env.existing,
                out := [panelTitleLine (pyStr nmv), c],
                calls := [REMOTE_REGISTRY_URL] }
            | none =>
              { exit := 1, file := env.existing, out := [tracebackLine .keyError],
                calls := [REMOTE_REGISTRY_URL] }
          | some _ =>
            { exit := 1, file := env.existing, out := [tracebackLine .typeError],
              calls := [REMOTE_REGISTRY_URL] }
      | _ =>
        { exit := 1, file := env.existing, out := [tracebackLine .typeError],
          calls := [REMOTE_REGISTRY_URL] }

/-- Whether `needle` starts the char list `hay`. -/
def matchesFront : List Char → List Char → Bool
  | [], _ => true
  | _ :: _, [] => false
  | a :: as, b :: bs => a == b && matchesFront as bs

/-- Whether `needle` occurs as a contiguous run inside `hay`. -/
def hasSub (needle : List Char) : List Char → Bool
  | [] => needle.isEmpty
  | b :: bs => matchesFront needle (b :: bs) || hasSub needle bs

/-- Whether the string `needle` occurs inside the string `hay`. -/
def strContains (hay needle : String) : Bool := hasSub needle.data hay.data

/-- Looking up a key after a Python dict insertion. -/
theorem lookup_dictInsert (d : Dict) (k : String) (v : Json) (k' : String) :
    (dictInsert d k v).lookup k' = if k' = k then some v else d.lookup k' := by
  induction d with
  | nil =>
    by_cases h : k' = k
    · simp [dictInsert, List.lookup, h]
    · have hb : (k' == k) = false := beq_eq_false_iff_ne.mpr h
      simp [dictInsert, List.lookup, hb, h]
  | cons hd tl ih =>
    obtain ⟨a, b⟩ := hd
    show (if a = k then (k, v) :: tl else (a, b) :: dictInsert tl k v).lookup k' = _
    by_cases hak : a = k
    · subst hak
      simp only [if_pos rfl]
      by_cases h : k' = a
      · simp [List.lookup, beq_iff_eq.mpr h, h]
      · have hb : (k' == a) = false := beq_eq_false_iff_ne.mpr h
        simp [List.lookup, hb, h]
    · simp only [if_neg hak]
      by_cases h : k' = a
      · have hb : (k' == a) = true := beq_iff_eq.mpr h
        have hkk : k' ≠ k := by rw [h]; exact hak
        simp [List.lookup, hb, hkk]
      · have hb : (k' == a) = false := beq_eq_false_iff_ne.mpr h
        simp [List.lookup, hb, ih]

/-- A key outside the key list of a dict looks up to none. -/
theorem lookup_eq_none_of_not_mem (d : Dict) (k : String)
    (h : k ∉ d.map Prod.fst) : d.lookup k = none := by
  induction d with
  | nil => rfl
  | cons hd tl ih =>
    obtain ⟨a, b⟩ := hd
    simp only [List.map_cons, List.mem_cons, not_or] at h
    have hb : (k == a) = false := beq_eq_false_iff_ne.mpr h.1
    simp [List.lookup, hb, ih h.2]

/-- Looking up in a Python dict merge: the updating dict wins on shared keys. -/
theorem lookup_dictUpdate (e : Dict) (d : Dict) (k : String)
    (h : (e.map Prod.fst).Nodup) :
    (dictUpdate d e).lookup k = (e.lookup k).or (d.lookup k) := by
  induction e generalizing d with
  | nil => simp [dictUpdate, List.lookup, Option.or]
  | cons hd tl ih =>
    obtain ⟨a, b⟩ := hd
    simp only [List.map_cons, List.nodup_cons] at h
    have step : dictUpdate d ((a, b) :: tl) = dictUpdate (dictInsert d a b) tl := rfl
    rw [step, ih _ h.2]
    by_cases hk : k = a
    · subst hk
      rw [lookup_eq_none_of_not_mem tl k h.1]
      simp [List.lookup, lookup_dictInsert, Option.or]
    · have hb : (k == a) = false := beq_eq_false_iff_ne.mpr hk
      simp [List.lookup, lookup_dictInsert, hk, hb, Option.or]

/-- A dict lookup succeeds exactly on the keys of the dict. -/
theorem lookup_isSome_iff_mem (d : Dict) (k : String) :
    (d.lookup k).isSome = true ↔ k ∈ d.map Prod.fst := by
  induction d with
  | nil => simp [List.lookup]
  | cons hd tl ih =>
    obtain ⟨a, b⟩ := hd
    by_cases h : k = a
    · simp [List.lookup, beq_iff_eq.mpr h, h]
    · have hb : (k == a) = false := beq_eq_false_iff_ne.mpr h
      simp [List.lookup, hb, h, ih]

/-- A nonempty optional string argument is truthy. -/
theorem truthy_some_of_ne (s : String) (h : s ≠ "") : truthy (some s) = true := by
  simp [truthy, h]

/-- `write_cursorrules` reads only the file, answer and write-outcome parts
of the environment. -/
theorem write_cursorrules_congr (content : String) (force : Bool) (e₁ e₂ : Env)
    (h1 : e₁.existing = e₂.existing) (h2 : e₁.answer = e₂.answer)
    (h3 : e₁.writeError = e₂.writeError) :
    write_cursorrules content force e₁ = write_cursorrules content force e₂ := by
  simp [write_cursorrules, h1, h2, h3]

/-- With a truthy name and no URL, `install` dispatches to the name mode. -/
theorem install_name_mode (n : String) (force : Bool) (env : Env) (h : n ≠ "") :
    install (some n) none force env = installFromName n force env := by
  have h1 : truthy (some n) = true := truthy_some_of_ne n h
  simp [install, truthy, h1, h]

/-- With a truthy URL and a falsy name, `install` dispatches to the URL mode. -/
theorem install_url_mode (u : String) (force : Bool) (env : Env)
    (name : Option String) (hu : u ≠ "") (hname : truthy name = false) :
    install name (some u) force env = installFromUrl u force env := by
  have h1 : truthy (some u) = true := truthy_some_of_ne u hu
  simp [install, h1, hname]

/-- Reduction of the name-mode install on an inline-content entry: the
content written is the entry content itself and the only network request is
the registry fetch. -/
theorem installFromName_inline (n nm c : String) (force : Bool) (env : Env)
    (reg : Dict) (fields : List (String × Json))
    (hreg : get_registry env.registry = .ok reg)
    (hlook : reg.lookup n = some (.obj fields))
    (hurl : fields.lookup "url" = none)
    (hc : fields.lookup "content" = some (.str c))
    (hnm : fields.lookup "name" = some (.str nm)) :
    installFromName n force env =
      match write_cursorrules c force env with
      | (.cancelled, file, wout) =>
        { exit := 0, file := file, out := wout, calls := [REMOTE_REGISTRY_URL] }
      | (.failed, file, wout) =>
        { exit := 1, file := file, out := wout, calls := [REMOTE_REGISTRY_URL] }
      | (.written, file, wout) =>
        { exit := 0, file := file, out := wout ++ [successLine nm, createdLine],
          calls := [REMOTE_REGISTRY_URL] } := by
  unfold installFromName
  rw [hreg]
  simp only [hlook, hurl, hc, hnm]
  rcases hw : write_cursorrules c force env with ⟨step, file, wout⟩
  cases step <;> simp [pyStr]

/-- Reduction of the name-mode install on a URL-backed entry whose download
fails: the command aborts with the exception text, writing nothing. -/
theorem installFromName_url_failure (n nm tu e : String) (force : Bool) (env : Env)
    (reg : Dict) (fields : List (String × Json))
    (hreg : get_registry env.registry = .ok reg)
    (hlook : reg.lookup n = some (.obj fields))
    (hnm : fields.lookup "name" = some (.str nm))
    (hurl : fields.lookup "url" = some (.str tu))
    (hf : env.fetch tu = .error e) :
    installFromName n force env =
      { exit := 1, file := env.existing,
        out := [fetchingRulesLine nm, failedTemplateLine e],
        calls := [REMOTE_REGISTRY_URL, tu] } := by
  unfold installFromName
  rw [hreg]
  simp only [hlook, hurl, hnm, hf]
  simp [pyStr]

/-- Reduction of the `show` command on an inline-content entry: the inline
text is printed as the panel body and the only network request is the
registry fetch. -/
theorem show_command_inline (n nm c : String) (env : Env)
    (reg : Dict) (fields : List (String × Json))
    (hreg : get_registry env.registry = .ok reg)
    (hlook : reg.lookup n = some (.obj fields))
    (hurl : fields.lookup "url" = none)
    (hc : fields.lookup "content" = some (.str c))
    (hnm : fields.lookup "name" = some (.str nm)) :
    show_command n env =
      { exit := 0, file := env.existing, out := [panelTitleLine nm, c],
        calls := [REMOTE_REGISTRY_URL] } := by
  unfold show_command
  rw [hreg]
  simp only [hlook, hurl, hc, hnm]
  simp [pyStr]

/-- When the write is permitted (no existing target, or force, or a granted
confirmation) and the OS write succeeds, `write_cursorrules` replaces the
file contents in full. -/
theorem write_cursorrules_written (content : String) (force : Bool) (env : Env)
    (hok : (env.existing.isNone || force || env.answer.getD false) = true)
    (hwe : env.writeError = none) :
    write_cursorrules content force env =
      (.written, some content,
        if env.existing.isSome && !force then [warnExistsLine] else []) := by
  cases hex : env.existing with
  | none => simp [write_cursorrules, hex, hwe]
  | some old =>
    cases force with
    | true => simp [write_cursorrules, hex, hwe]
    | false =>
      have hans : env.answer.getD false = true := by simpa [hex] using hok
      simp [write_cursorrules, hex, hwe, hans]

/-- A concrete environment used by witnesses: the registry request times out,
every download fails with a short message, there is no target file, no
interactive answer, and the OS write succeeds. -/
def envBasic : Env :=
  { registry := .timeout, fetch := fun _ => .error "Read timed out.",
    existing := none, answer := none, writeError := none }

/-- A concrete environment with an existing target file, no interactive
answer, and all downloads succeeding. -/
def envExisting : Env :=
  { registry := .timeout, fetch := fun _ => .ok "NEW CONTENT",
    existing := some "OLD CONTENT", answer := none, writeError := none }

/-- C1 counterexample: a successfully fetched registry document whose
"templates" field is the number 5 makes `get_registry` raise an uncaught
TypeError, because `dict.update` of a non-iterable raises TypeError and the
handler catches only RequestException, ValueError and KeyError — so the
claim that every malformed-`templates` outcome silently returns the local
catalog is false. -/
theorem C1_counterexample :
    get_registry (.success (.obj [("templates", .num 5)])) = .error .typeError := rfl

/-- C1 (amended): for every remote-fetch outcome among timeout, connection
failure, non-success HTTP status, JSON parse failure, a document that is not
a JSON object, and an object document without a "templates" key,
`get_registry` raises no exception and returns the local catalog TEMPLATES
exactly, never a partially merged mapping (and the function body prints
nothing).  A present but non-mapping "templates" value is excluded: it can
raise an uncaught TypeError. -/
theorem C1_registry_fallback (o : RemoteOutcome) (h : fallbackOutcome o = true) :
    get_registry o = .ok TEMPLATES := by
  cases o with
  | timeout => rfl
  | connectionFailure => rfl
  | httpError s => rfl
  | invalidJson => rfl
  | success doc =>
    cases doc with
    | obj fields =>
      simp only [fallbackOutcome, Option.isNone_iff_eq_none] at h
      simp [get_registry, get_registry_with, h]
    | arr l => rfl
    | str s => rfl
    | num n => rfl
    | bool b => rfl
    | null => rfl

/-- C1 witness: the timeout outcome falls back to TEMPLATES. -/
theorem C1_witness :
    fallbackOutcome .timeout = true ∧ get_registry .timeout = .ok TEMPLATES :=
  ⟨rfl, C1_registry_fallback .timeout rfl⟩

/-- C2 (confirmed): for every local catalog and every well-formed remote
templates mapping (unique keys, entries of TemplateEntry shape), the registry
built by `get_registry` comes back without error; every key resolves to the
remote entry when the remote has it and to the local entry unmodified
otherwise, and the key set is exactly the union of the two key sets. -/
theorem C2_merge_registry (loc remote : Dict)
    (hnd : (remote.map Prod.fst).Nodup) (hwf : wfRemote remote = true) :
    ∃ d, get_registry_with loc (.success (.obj [("templates", .obj remote)])) = .ok d ∧
      (∀ k, d.lookup k = (remote.lookup k).or (loc.lookup k)) ∧
      (∀ k, k ∈ d.map Prod.fst ↔ k ∈ loc.map Prod.fst ∨ k ∈ remote.map Prod.fst) := by
  refine ⟨dictUpdate loc remote, rfl, ?_, ?_⟩
  · intro k
    exact lookup_dictUpdate remote loc k hnd
  · intro k
    rw [← lookup_isSome_iff_mem, ← lookup_isSome_iff_mem, ← lookup_isSome_iff_mem,
      lookup_dictUpdate remote loc k hnd]
    cases remote.lookup k <;> cases loc.lookup k <;> simp [Option.or]

/-- The concrete remote mapping of the C2 witness: it overrides the local
"python" entry with a URL-backed one. -/
def c2Remote : Dict :=
  [("python", Json.obj [("name", Json.str "Remote Python"),
    ("description", Json.str "overridden"),
    ("url", Json.str "https://example.com/p.txt")])]

/-- C2 witness: the merge at a concrete local catalog and remote mapping. -/
theorem C2_witness :
    ((c2Remote.map Prod.fst).Nodup ∧ wfRemote c2Remote = true) ∧
    ∃ d, get_registry_with TEMPLATES (.success (.obj [("templates", .obj c2Remote)])) = .ok d ∧
      (∀ k, d.lookup k = (c2Remote.lookup k).or (TEMPLATES.lookup k)) ∧
      (∀ k, k ∈ d.map Prod.fst ↔ k ∈ TEMPLATES.map Prod.fst ∨ k ∈ c2Remote.map Prod.fst) :=
  ⟨⟨by decide, rfl⟩, C2_merge_registry TEMPLATES c2Remote (by decide) rfl⟩

/-- C4 (confirmed): giving both a template key and a URL makes `install`
print the validation error and exit 1, leaving the target file unchanged and
performing no network request at all — the registry is never fetched and
nothing is downloaded. -/
theorem C4_both_given_rejected (env : Env) (n u : String) (force : Bool)
    (hn : n ≠ "") (hu : u ≠ "") :
    install (some n) (some u) force env =
      { exit := 1, file := env.existing, out := [bothErrLine], calls := [] } := by
  have h1 : truthy (some u) = true := truthy_some_of_ne u hu
  have h2 : truthy (some n) = true := truthy_some_of_ne n hn
  simp [install, h1, h2]

/-- C4 witness: both arguments given at a concrete environment. -/
theorem C4_witness :
    ("python" ≠ "" ∧ "https://example.com/r.txt" ≠ "") ∧
    install (some "python") (some "https://example.com/r.txt") false envBasic =
      { exit := 1, file := envBasic.existing, out := [bothErrLine], calls := [] } :=
  ⟨⟨by decide, by decide⟩,
   C4_both_given_rejected envBasic "python" "https://example.com/r.txt" false
     (by decide) (by decide)⟩

/-- C9 (confirmed): `get_registry` never mutates the module-level TEMPLATES:
line 47 of main.py copies the catalog and only the copy is ever updated, so
with the module-level binding threaded as state, after any call TEMPLATES
still equals its initial value, and the returned mapping is the separately
built copy. -/
theorem C9_templates_not_mutated (o : RemoteOutcome) :
    (get_registry_st TEMPLATES o).2 = TEMPLATES ∧
    (get_registry_st TEMPLATES o).1 = get_registry o :=
  ⟨rfl, rfl⟩

/-- C10 (confirmed): the mutual-exclusion validation of `install` tests
Python truthiness, so an empty-string argument counts as absent: an
empty-string key together with a nonempty URL behaves exactly like the
URL-only invocation, and an empty-string URL with the key absent or empty is
rejected as neither-given with exit 1. -/
theorem C10_truthiness (env : Env) (u : String) (force : Bool) (hu : u ≠ "") :
    install (some "") (some u) force env = install none (some u) force env ∧
    install none (some "") force env =
      { exit := 1, file := env.existing, out := neitherErrLines, calls := [] } ∧
    install (some "") (some "") force env =
      { exit := 1, file := env.existing, out := neitherErrLines, calls := [] } := by
  have h1 : truthy (some u) = true := truthy_some_of_ne u hu
  refine ⟨?_, ?_, ?_⟩ <;> simp [install, truthy, h1]

/-- C10 witness: concrete empty-string arguments. -/
theorem C10_witness :
    "https://example.com/r.txt" ≠ "" ∧
    install (some "") (some "https://example.com/r.txt") false envBasic =
      install none (some "https://example.com/r.txt") false envBasic :=
  ⟨by decide,
   (C10_truthiness envBasic "https://example.com/r.txt" false (by decide)).1⟩

/-- C3 (confirmed): when the selected entry carries inline content and no
URL, both `install` and `show` resolve the content to exactly that text with
no network request beyond the registry fetch and no failure mode: replacing
every download outcome changes neither command result, install performs only
the registry call, and show prints the inline text itself and exits 0. -/
theorem C3_inline_content (env : Env) (n nm c : String) (force : Bool)
    (reg : Dict) (fields : List (String × Json))
    (hn : n ≠ "")
    (hreg : get_registry env.registry = .ok reg)
    (hlook : reg.lookup n = some (.obj fields))
    (hurl : fields.lookup "url" = none)
    (hc : fields.lookup "content" = some (.str c))
    (hnm : fields.lookup "name" = some (.str nm)) :
    (∀ f, install (some n) none force { env with fetch := f } =
        install (some n) none force env) ∧
    (install (some n) none force env).calls = [REMOTE_REGISTRY_URL] ∧
    (∀ f, show_command n { env with fetch := f } = show_command n env) ∧
    show_command n env =
      { exit := 0, file := env.existing, out := [panelTitleLine nm, c],
        calls := [REMOTE_REGISTRY_URL] } := by
  refine ⟨?_, ?_, ?_, ?_⟩
  · intro f
    rw [install_name_mode n force { env with fetch := f } hn,
      install_name_mode n force env hn,
      installFromName_inline n nm c force { env with fetch := f } reg fields hreg hlook hurl hc hnm,
      installFromName_inline n nm c force env reg fields hreg hlook hurl hc hnm,
      write_cursorrules_congr c force { env with fetch := f } env rfl rfl rfl]
  · rw [install_name_mode n force env hn,
      installFromName_inline n nm c force env reg fields hreg hlook hurl hc hnm]
    rcases write_cursorrules c force env with ⟨step, file, wout⟩
    cases step <;> rfl
  · intro f
    rw [show_command_inline n nm c { env with fetch := f } reg fields hreg hlook hurl hc hnm,
      show_command_inline n nm c env reg fields hreg hlook hurl hc hnm]
  · exact show_command_inline n nm c env reg fields hreg hlook hurl hc hnm

/-- C3 witness: the local "python" entry resolved in a concrete offline
environment. -/
theorem C3_witness :
    ("python" ≠ "" ∧ get_registry envBasic.registry = .ok TEMPLATES ∧
      TEMPLATES.lookup "python" = some (.obj pythonTemplate) ∧
      pythonTemplate.lookup "url" = none ∧
      pythonTemplate.lookup "content" = some (.str pythonContent) ∧
      pythonTemplate.lookup "name" = some (.str "Python")) ∧
    show_command "python" envBasic =
      { exit := 0, file := envBasic.existing,
        out := [panelTitleLine "Python", pythonContent],
        calls := [REMOTE_REGISTRY_URL] } :=
  ⟨⟨by decide, rfl, rfl, rfl, rfl, rfl⟩,
   (C3_inline_content envBasic "python" "Python" pythonContent false TEMPLATES
      pythonTemplate (by decide) rfl rfl rfl rfl rfl).2.2.2⟩

/-- C5 (confirmed): with the target file present, force off, and the
overwrite question answered no — explicitly or by the empty-input default —
`install` prompts, cancels, leaves the file contents unchanged, and exits 0,
in both the direct-URL mode and the template-name mode with inline content. -/
theorem C5_decline_keeps_file (env : Env) (old u dl n nm c : String)
    (reg : Dict) (fields : List (String × Json))
    (hex : env.existing = some old)
    (hans : env.answer = none ∨ env.answer = some false)
    (hu : u ≠ "") (hf : env.fetch u = .ok dl)
    (hn : n ≠ "") (hreg : get_registry env.registry = .ok reg)
    (hlook : reg.lookup n = some (.obj fields))
    (hurl : fields.lookup "url" = none)
    (hc : fields.lookup "content" = some (.str c))
    (hnm : fields.lookup "name" = some (.str nm)) :
    install none (some u) false env =
      { exit := 0, file := some old,
        out := [downloadingLine, warnExistsLine, cancelledLine], calls := [u] } ∧
    install (some n) none false env =
      { exit := 0, file := some old, out := [warnExistsLine, cancelledLine],
        calls := [REMOTE_REGISTRY_URL] } := by
  have hwc : ∀ content, write_cursorrules content false env =
      (.cancelled, some old, [warnExistsLine, cancelledLine]) := by
    intro content
    have ha : env.answer.getD false = false := by
      rcases hans with h | h <;> simp [h]
    simp [write_cursorrules, hex, ha]
  constructor
  · rw [install_url_mode u false env none hu rfl]
    unfold installFromUrl
    rw [hf]
    simp [hwc dl]
  · rw [install_name_mode n false env hn,
      installFromName_inline n nm c false env reg fields hreg hlook hurl hc hnm,
      hwc c]

/-- C5 witness: declining the overwrite of a concrete existing file. -/
theorem C5_witness :
    (envExisting.existing = some "OLD CONTENT" ∧ envExisting.answer = none) ∧
    install (some "python") none false envExisting =
      { exit := 0, file := some "OLD CONTENT",
        out := [warnExistsLine, cancelledLine], calls := [REMOTE_REGISTRY_URL] } :=
  ⟨⟨rfl, rfl⟩,
   (C5_decline_keeps_file envExisting "OLD CONTENT" "https://example.com/r.txt"
      "NEW CONTENT" "python" "Python" pythonContent TEMPLATES pythonTemplate
      rfl (Or.inl rfl) (by decide) rfl (by decide) rfl rfl rfl rfl rfl).2⟩

/-- The URL of the remote, URL-backed template used to examine C6. -/
def c6url : String := "https://example.com/rules/remote1.txt"

/-- A download-failure message of the shape requests gives a read timeout;
it does not contain the requested URL. -/
def c6msg : String := "Read timed out. (read timeout=10)"

/-- The entry dict of the URL-backed template served by the remote registry
in the C6 environment. -/
def remote1Fields : List (String × Json) :=
  [("name", Json.str "Remote One"), ("description", Json.str "remote rules"),
   ("url", Json.str c6url)]

/-- An environment whose remote registry supplies one URL-backed template
and whose downloads fail with a URL-free exception message. -/
def envC6 : Env :=
  { registry := .success (.obj [("templates",
      .obj [("remote1", Json.obj remote1Fields)])]),
    fetch := fun _ => .error c6msg,
    existing := none, answer := none, writeError := none }

/-- The registry the C6 environment produces: the local catalog plus the
remote URL-backed entry. -/
def regC6 : Dict := TEMPLATES ++ [("remote1", Json.obj remote1Fields)]

/-- C6 fails as stated: installing the URL-backed key "remote1" in `envC6`
aborts with exit 1 and writes nothing, but because the code prints only the
exception text and never the URL itself, no printed line contains the
failing URL. -/
theorem C6_counterexample :
    (install (some "remote1") none false envC6).exit = 1 ∧
    (install (some "remote1") none false envC6).file = none ∧
    (install (some "remote1") none false envC6).out.all
      (fun l => !(strContains l c6url)) = true :=
  ⟨rfl, rfl, rfl⟩

/-- C6 (amended): installing a registry key whose entry is URL-backed, when
that download fails, writes nothing, exits 1, and reports the failure with
the message of the raised exception; whether the URL appears is up to that
message (requests puts the URL into HTTP-status errors but not, say, into
read timeouts), the code itself never prints the URL. -/
theorem C6_url_backed_failure (env : Env) (n nm tu e : String) (force : Bool)
    (reg : Dict) (fields : List (String × Json))
    (hn : n ≠ "")
    (hreg : get_registry env.registry = .ok reg)
    (hlook : reg.lookup n = some (.obj fields))
    (hnm : fields.lookup "name" = some (.str nm))
    (hurl : fields.lookup "url" = some (.str tu))
    (hf : env.fetch tu = .error e) :
    install (some n) none force env =
      { exit := 1, file := env.existing,
        out := [fetchingRulesLine nm, failedTemplateLine e],
        calls := [REMOTE_REGISTRY_URL, tu] } := by
  rw [install_name_mode n force env hn]
  exact installFromName_url_failure n nm tu e force env reg fields hreg hlook hnm hurl hf

/-- C6 witness: the amended statement at the concrete C6 environment. -/
theorem C6_witness :
    (get_registry envC6.registry = .ok regC6 ∧
      regC6.lookup "remote1" = some (.obj remote1Fields) ∧
      envC6.fetch c6url = .error c6msg) ∧
    install (some "remote1") none false envC6 =
      { exit := 1, file := envC6.existing,
        out := [fetchingRulesLine "Remote One", failedTemplateLine c6msg],
        calls := [REMOTE_REGISTRY_URL, c6url] } :=
  ⟨⟨rfl, rfl, rfl⟩,
   C6_url_backed_failure envC6 "remote1" "Remote One" c6url c6msg false regC6
     remote1Fields (by decide) rfl rfl rfl rfl rfl⟩

/-- C7 (confirmed): a successful name-mode install of an entry with inline
content writes the target file with exactly the entry content string —
`write_text` stores the Python string as given, UTF-8 encoded, with nothing
added or stripped — and exits 0.  The write goes through when the target is
absent, force is set, or the overwrite is confirmed, and the OS write
succeeds. -/
theorem C7_roundtrip (env : Env) (n nm c : String) (force : Bool)
    (reg : Dict) (fields : List (String × Json))
    (hn : n ≠ "")
    (hreg : get_registry env.registry = .ok reg)
    (hlook : reg.lookup n = some (.obj fields))
    (hurl : fields.lookup "url" = none)
    (hc : fields.lookup "content" = some (.str c))
    (hnm : fields.lookup "name" = some (.str nm))
    (hok : (env.existing.isNone || force || env.answer.getD false) = true)
    (hwe : env.writeError = none) :
    (install (some n) none force env).file = some c ∧
    (install (some n) none force env).exit = 0 := by
  rw [install_name_mode n force env hn,
    installFromName_inline n nm c force env reg fields hreg hlook hurl hc hnm,
    write_cursorrules_written c force env hok hwe]
  constructor <;> rfl

/-- C7 witness: installing the local "python" template into an empty
directory stores exactly its inline content. -/
theorem C7_witness :
    ((envBasic.existing.isNone || false || envBasic.answer.getD false) = true ∧
      envBasic.writeError = none) ∧
    (install (some "python") none false envBasic).file = some pythonContent ∧
    (install (some "python") none false envBasic).exit = 0 :=
  ⟨⟨rfl, rfl⟩,
   C7_roundtrip envBasic "python" "Python" pythonContent false TEMPLATES
     pythonTemplate (by decide) rfl rfl rfl rfl rfl rfl rfl⟩

/-- C8 (confirmed): with force set and the target present, `install` never
consults the overwrite prompt — the result is the same for every interactive
answer and the warning line is never printed — and fully replaces the file
with the new content regardless of its prior contents, exiting 0, in both
the direct-URL mode and the template-name inline mode. -/
theorem C8_force_overwrites (env : Env) (old u dl n nm c : String)
    (reg : Dict) (fields : List (String × Json))
    (hex : env.existing = some old) (hwe : env.writeError = none)
    (hu : u ≠ "") (hf : env.fetch u = .ok dl)
    (hn : n ≠ "") (hreg : get_registry env.registry = .ok reg)
    (hlook : reg.lookup n = some (.obj fields))
    (hurl : fields.lookup "url" = none)
    (hc : fields.lookup "content" = some (.str c))
    (hnm : fields.lookup "name" = some (.str nm)) :
    (∀ a, install none (some u) true { env with answer := a } =
        install none (some u) true env) ∧
    install none (some u) true env =
      { exit := 0, file := some dl,
        out := [downloadingLine, urlSuccessLine, createdLine], calls := [u] } ∧
    (∀ a, install (some n) none true { env with answer := a } =
        install (some n) none true env) ∧
    install (some n) none true env =
      { exit := 0, file := some c, out := [successLine nm, createdLine],
        calls := [REMOTE_REGISTRY_URL] } := by
  have hwT : ∀ content (e : Env), e.writeError = none →
      write_cursorrules content true e = (.written, some content, []) := by
    intro content e h
    simp [write_cursorrules, h]
  have hUrl : ∀ (e : Env), e.fetch u = Except.ok dl → e.writeError = none →
      installFromUrl u true e =
        { exit := 0, file := some dl,
          out := [downloadingLine, urlSuccessLine, createdLine], calls := [u] } := by
    intro e hfe hwee
    unfold installFromUrl
    simp [hfe, hwT dl e hwee]
  have hName : ∀ (e : Env), get_registry e.registry = Except.ok reg →
      e.writeError = none →
      installFromName n true e =
        { exit := 0, file := some c, out := [successLine nm, createdLine],
          calls := [REMOTE_REGISTRY_URL] } := by
    intro e hrege hwee
    simp [installFromName_inline n nm c true e reg fields hrege hlook hurl hc hnm,
      hwT c e hwee]
  refine ⟨?_, ?_, ?_, ?_⟩
  · intro a
    rw [install_url_mode u true { env with answer := a } none hu rfl,
      install_url_mode u true env none hu rfl,
      hUrl { env with answer := a } hf hwe, hUrl env hf hwe]
  · rw [install_url_mode u true env none hu rfl, hUrl env hf hwe]
  · intro a
    rw [install_name_mode n true { env with answer := a } hn,
      install_name_mode n true env hn,
      hName { env with answer := a } hreg hwe, hName env hreg hwe]
  · rw [install_name_mode n true env hn, hName env hreg hwe]

/-- C8 witness: a forced install over a concrete existing file. -/
theorem C8_witness :
    (envExisting.existing = some "OLD CONTENT" ∧ envExisting.writeError = none) ∧
    install (some "python") none true envExisting =
      { exit := 0, file := some pythonContent, out := [successLine "Python", createdLine],
        calls := [REMOTE_REGISTRY_URL] } :=
  ⟨⟨rfl, rfl⟩,
   (C8_force_overwrites envExisting "OLD CONTENT" "https://example.com/r.txt"
      "NEW CONTENT" "python" "Python" pythonContent TEMPLATES pythonTemplate
      rfl rfl (by decide) rfl (by decide) rfl rfl rfl rfl rfl).2.2.2⟩

end CursorInit
